import Mathlib

/-!
Verification of the account-hierarchy teaching repository.

The repository holds three self-contained C++ programs:
* an LSP demonstration with `DepositOnlyAccount` / `WithdrawableAccount`
  abstractions, concrete classes `SavingAccount`, `CurrentAccount`,
  `FixedTermAccount`, and a `BankClient`;
* a history-constraint violation example with `BankAccount` and
  `FixedDepositAccount` (whose `withdraw` always throws);
* a class-invariant violation example with `BankAccount` and
  `CheatAccount` (whose `withdraw` skips the funds check).

Each C++ class is embedded as a structure over an exact rational balance
(the C++ `double`; every amount occurring in the programs is integral, so
no rounding behaviour is lost).  A method that prints a success or failure
message is embedded as a function returning the new state together with an
outcome; a method that throws is embedded with `Except`.
-/

/-- A money amount (the C++ `double`), modelled exactly as a rational. -/
abbrev Money := ℚ

namespace LSPDemo

/-- `SavingAccount` from the LSP demonstration file: a withdrawable
account holding a private `balance`. -/
structure SavingAccount where
  balance : Money
deriving DecidableEq, Repr

/-- Constructor `SavingAccount()`: sets `balance = 0`; it takes no
argument and cannot fail. -/
def SavingAccount.new : SavingAccount := { balance := 0 }

/-- `SavingAccount::deposit`: `balance += amount`, unconditionally. -/
def SavingAccount.deposit (a : SavingAccount) (amount : Money) : SavingAccount :=
  { a with balance := a.balance + amount }

/-- `SavingAccount::withdraw`: if `balance >= amount` subtract and report
success (`true`), else leave the balance alone and report the
"Insufficient funds" message (`false`). -/
def SavingAccount.withdraw (a : SavingAccount) (amount : Money) : SavingAccount × Bool :=
  if a.balance ≥ amount then ({ a with balance := a.balance - amount }, true)
  else (a, false)

/-- `CurrentAccount` from the LSP demonstration file. -/
structure CurrentAccount where
  balance : Money
deriving DecidableEq, Repr

/-- Constructor `CurrentAccount()`: sets `balance = 0`. -/
def CurrentAccount.new : CurrentAccount := { balance := 0 }

/-- `CurrentAccount::deposit`: `balance += amount`, unconditionally. -/
def CurrentAccount.deposit (a : CurrentAccount) (amount : Money) : CurrentAccount :=
  { a with balance := a.balance + amount }

/-- `CurrentAccount::withdraw`: same guard as `SavingAccount::withdraw`. -/
def CurrentAccount.withdraw (a : CurrentAccount) (amount : Money) : CurrentAccount × Bool :=
  if a.balance ≥ amount then ({ a with balance := a.balance - amount }, true)
  else (a, false)

/-- `FixedTermAccount` from the LSP demonstration file: inherits only
`DepositOnlyAccount`, so it has no `withdraw` member at all. -/
structure FixedTermAccount where
  balance : Money
deriving DecidableEq, Repr

/-- Constructor `FixedTermAccount()`: sets `balance = 0`. -/
def FixedTermAccount.new : FixedTermAccount := { balance := 0 }

/-- `FixedTermAccount::deposit`: `balance += amount`, unconditionally. -/
def FixedTermAccount.deposit (a : FixedTermAccount) (amount : Money) : FixedTermAccount :=
  { a with balance := a.balance + amount }

end LSPDemo

/-- Errors thrown (as C++ exceptions) or reported (as console messages) by
the three programs.  `invalidConstruction` is `invalid_argument("Balance
can't be negative")`, `insufficientFunds` is the thrown
`runtime_error("Insufficient funds")` or the printed "Insufficient funds"
message, `withdrawNotAllowed` is `runtime_error("Withdraw not allowed in
Fixed Deposit")`. -/
inductive BankError
  | invalidConstruction
  | insufficientFunds
  | withdrawNotAllowed
deriving DecidableEq, Repr

namespace HistoryDemo

/-- `BankAccount` from the history-constraint example file. -/
structure BankAccount where
  balance : Money
deriving DecidableEq, Repr

/-- Constructor `BankAccount(double b)`: throws `invalid_argument` when
`b < 0`, otherwise stores `balance = b`. -/
def BankAccount.new (b : Money) : Except BankError BankAccount :=
  if b < 0 then .error .invalidConstruction else .ok { balance := b }

/-- `BankAccount::withdraw`: throws `runtime_error("Insufficient funds")`
when `balance - amount < 0`, otherwise `balance -= amount`. -/
def BankAccount.withdraw (a : BankAccount) (amount : Money) :
    Except BankError BankAccount :=
  if a.balance - amount < 0 then .error .insufficientFunds
  else .ok { a with balance := a.balance - amount }

/-- `FixedDepositAccount` from the history-constraint example file:
inherits `BankAccount` and overrides `withdraw`. -/
structure FixedDepositAccount where
  balance : Money
deriving DecidableEq, Repr

/-- Constructor `FixedDepositAccount(double b)`: delegates to
`BankAccount(b)`. -/
def FixedDepositAccount.new (b : Money) : Except BankError FixedDepositAccount :=
  (BankAccount.new b).map (fun a => { balance := a.balance })

/-- `FixedDepositAccount::withdraw`: always throws
`runtime_error("Withdraw not allowed in Fixed Deposit")`; the balance is
never touched. -/
def FixedDepositAccount.withdraw (_ : FixedDepositAccount) (_ : Money) :
    Except BankError FixedDepositAccount :=
  .error .withdrawNotAllowed

end HistoryDemo

namespace InvariantDemo

/-- `BankAccount` from the class-invariant example file
(`ClassInvariants.cpp`); textually the same class as the
history-constraint one. -/
structure BankAccount where
  balance : Money
deriving DecidableEq, Repr

/-- Constructor `BankAccount(double b)`: throws `invalid_argument` when
`b < 0`, otherwise stores `balance = b`. -/
def BankAccount.new (b : Money) : Except BankError BankAccount :=
  if b < 0 then .error .invalidConstruction else .ok { balance := b }

/-- `BankAccount::withdraw` from `ClassInvariants.cpp`. -/
def BankAccount.withdraw (a : BankAccount) (amount : Money) :
    Except BankError BankAccount :=
  if a.balance - amount < 0 then .error .insufficientFunds
  else .ok { a with balance := a.balance - amount }

/-- `CheatAccount` from `ClassInvariants.cpp`: inherits `BankAccount`
and overrides `withdraw` without any validation. -/
structure CheatAccount where
  balance : Money
deriving DecidableEq, Repr

/-- Constructor `CheatAccount(double b)`: delegates to `BankAccount(b)`. -/
def CheatAccount.new (b : Money) : Except BankError CheatAccount :=
  (BankAccount.new b).map (fun a => { balance := a.balance })

/-- `CheatAccount::withdraw`: `balance -= amount` with no check; it never
fails and may drive the balance negative. -/
def CheatAccount.withdraw (a : CheatAccount) (amount : Money) : CheatAccount :=
  { a with balance := a.balance - amount }

end InvariantDemo

/-- Every concrete account class appearing in the repository.  `bankH`
and `bankI` are the (textually identical) `BankAccount` classes of the
history-constraint file and of `ClassInvariants.cpp` respectively. -/
inductive Variant
  | saving
  | current
  | fixedTerm
  | bankH
  | fixedDeposit
  | bankI
  | cheat
deriving DecidableEq, Repr

/-- The operations of the account interfaces. -/
inductive Op
  | deposit (amount : Money)
  | withdraw (amount : Money)
deriving DecidableEq, Repr

/-- The outcome of one operation, as observed by the caller: normal
return, or a thrown exception / printed failure message. -/
inductive Outcome
  | ok
  | failed (e : BankError)
deriving DecidableEq, Repr

/-- Whether the class has a `deposit` member (i.e. derives from
`DepositOnlyAccount`); the bank-family classes of the two contrast files
declare no `deposit` at all. -/
def supportsDeposit : Variant → Bool
  | .saving => true
  | .current => true
  | .fixedTerm => true
  | _ => false

/-- Whether the class has a `withdraw` member; `FixedTermAccount` is the
only class without one. -/
def supportsWithdraw : Variant → Bool
  | .fixedTerm => false
  | _ => true

/-- Running the constructor of each class.  The LSP-demo classes take no
argument (the `Money` argument is ignored) and start at balance `0`; the
bank-family classes validate the requested initial balance and throw on a
negative one. -/
def construct : Variant → Money → Except BankError Money
  | .saving, _ => .ok LSPDemo.SavingAccount.new.balance
  | .current, _ => .ok LSPDemo.CurrentAccount.new.balance
  | .fixedTerm, _ => .ok LSPDemo.FixedTermAccount.new.balance
  | .bankH, b => (HistoryDemo.BankAccount.new b).map (fun a => a.balance)
  | .fixedDeposit, b => (HistoryDemo.FixedDepositAccount.new b).map (fun a => a.balance)
  | .bankI, b => (InvariantDemo.BankAccount.new b).map (fun a => a.balance)
  | .cheat, b => (InvariantDemo.CheatAccount.new b).map (fun a => a.balance)

/-- One virtual call on an account of class `v` currently holding balance
`b`: the new balance paired with the observed outcome, dispatched to the
class's own member function.  `none` means the class has no such member,
so the call does not even compile in the source program. -/
def step (v : Variant) (b : Money) : Op → Option (Money × Outcome)
  | .deposit x =>
    match v with
    | .saving => some (((LSPDemo.SavingAccount.mk b).deposit x).balance, .ok)
    | .current => some (((LSPDemo.CurrentAccount.mk b).deposit x).balance, .ok)
    | .fixedTerm => some (((LSPDemo.FixedTermAccount.mk b).deposit x).balance, .ok)
    | _ => none
  | .withdraw x =>
    match v with
    | .saving =>
      let r := (LSPDemo.SavingAccount.mk b).withdraw x
      some (r.1.balance, if r.2 then .ok else .failed .insufficientFunds)
    | .current =>
      let r := (LSPDemo.CurrentAccount.mk b).withdraw x
      some (r.1.balance, if r.2 then .ok else .failed .insufficientFunds)
    | .fixedTerm => none
    | .bankH =>
      match (HistoryDemo.BankAccount.mk b).withdraw x with
      | .ok a2 => some (a2.balance, .ok)
      | .error e => some (b, .failed e)
    | .fixedDeposit =>
      match (HistoryDemo.FixedDepositAccount.mk b).withdraw x with
      | .ok a2 => some (a2.balance, .ok)
      | .error e => some (b, .failed e)
    | .bankI =>
      match (InvariantDemo.BankAccount.mk b).withdraw x with
      | .ok a2 => some (a2.balance, .ok)
      | .error e => some (b, .failed e)
    | .cheat => some (((InvariantDemo.CheatAccount.mk b).withdraw x).balance, .ok)

/-- Run a sequence of interface calls on an account of class `v` holding
balance `b`, collecting the outcome of every executed call.  A call on a
missing member (which could not compile in C++) is skipped; for the
classes the theorems below quantify over, every call in range is
supported, so this branch is never taken there. -/
def run (v : Variant) (b : Money) : List Op → Money × List Outcome
  | [] => (b, [])
  | op :: ops =>
    match step v b op with
    | some (b2, o) =>
      let r := run v b2 ops
      (r.1, o :: r.2)
    | none => run v b ops

/-- The withdraw-capable variants of the spec's account-contract
hierarchy: the concrete classes substitutable for `WithdrawableAccount`
in the LSP demonstration (`SavingAccount`, `CurrentAccount`), together
with the base `BankAccount` class of each contrast file, which honors the
same withdraw contract.  The two deliberately violating subclasses
(`FixedDepositAccount`, `CheatAccount`) are the spec's negative-contrast
scenarios, not members of the withdraw-capable contract. -/
def withdrawContractVariants : List Variant :=
  [.saving, .current, .bankH, .bankI]

namespace LSPDemo

/-- An account reached through a `WithdrawableAccount*` in the LSP
demonstration: one of the two concrete withdrawable classes. -/
inductive WAccount
  | saving (a : SavingAccount)
  | current (a : CurrentAccount)
deriving DecidableEq, Repr

/-- The balance stored in the pointed-to object. -/
def WAccount.balance : WAccount → Money
  | .saving a => a.balance
  | .current a => a.balance

/-- Virtual dispatch of `deposit` through `WithdrawableAccount*`. -/
def WAccount.deposit : WAccount → Money → WAccount
  | .saving a, x => .saving (a.deposit x)
  | .current a, x => .current (a.deposit x)

/-- Virtual dispatch of `withdraw` through `WithdrawableAccount*`. -/
def WAccount.withdraw : WAccount → Money → WAccount × Bool
  | .saving a, x =>
    let r := a.withdraw x
    (.saving r.1, r.2)
  | .current a, x =>
    let r := a.withdraw x
    (.current r.1, r.2)

/-- An account reached through a `DepositOnlyAccount*` in the LSP
demonstration: any of the three concrete classes.  This interface has no
`withdraw` member. -/
inductive DAccount
  | saving (a : SavingAccount)
  | current (a : CurrentAccount)
  | fixedTerm (a : FixedTermAccount)
deriving DecidableEq, Repr

/-- The balance stored in the pointed-to object. -/
def DAccount.balance : DAccount → Money
  | .saving a => a.balance
  | .current a => a.balance
  | .fixedTerm a => a.balance

/-- Virtual dispatch of `deposit` through `DepositOnlyAccount*`. -/
def DAccount.deposit : DAccount → Money → DAccount
  | .saving a, x => .saving (a.deposit x)
  | .current a, x => .current (a.deposit x)
  | .fixedTerm a, x => .fixedTerm (a.deposit x)

/-- One interface call on a withdrawable account, discarding the printed
outcome (as `processTransactions` does). -/
def WAccount.applyOp (acc : WAccount) : Op → WAccount
  | .deposit x => acc.deposit x
  | .withdraw x => (acc.withdraw x).1

/-- A sequence of interface calls on a withdrawable account. -/
def WAccount.applyOps (acc : WAccount) (ops : List Op) : WAccount :=
  ops.foldl WAccount.applyOp acc

/-- `BankClient`: holds the two collections passed to its constructor. -/
structure BankClient where
  withdrawableAccounts : List WAccount
  depositOnlyAccounts : List DAccount
deriving DecidableEq, Repr

/-- `BankClient::processTransactions`: for every withdrawable account,
`acc->deposit(1000); acc->withdraw(500);`; for every deposit-only
account, `acc->deposit(5000);`. -/
def BankClient.processTransactions (c : BankClient) : BankClient :=
  { withdrawableAccounts :=
      c.withdrawableAccounts.map (fun acc => ((acc.deposit 1000).withdraw 500).1)
    depositOnlyAccounts :=
      c.depositOnlyAccounts.map (fun acc => acc.deposit 5000) }

end LSPDemo

/-- C3: on every account class with a `deposit` member and every amount
`a > 0`, `deposit(a)` succeeds unconditionally and sets the balance to
exactly `balance + a`, which is strictly larger: it never decreases the
balance. -/
theorem claim_C3 (v : Variant) (b a : Money) (hdep : supportsDeposit v = true)
    (ha : 0 < a) :
    step v b (Op.deposit a) = some (b + a, Outcome.ok) ∧ b < b + a := by
  refine ⟨?_, by linarith⟩
  cases v <;> simp_all [supportsDeposit, step, LSPDemo.SavingAccount.deposit,
    LSPDemo.CurrentAccount.deposit, LSPDemo.FixedTermAccount.deposit]

/-- Witness for C3: depositing 1000 into a `SavingAccount` holding 0. -/
theorem claim_C3_witness :
    step Variant.saving 0 (Op.deposit 1000) = some (0 + 1000, Outcome.ok) ∧
      (0 : Money) < 0 + 1000 :=
  claim_C3 Variant.saving 0 1000 rfl (by norm_num)

/-- C9: `deposit` validates nothing: on every class with a `deposit`
member it sets the balance to `balance + a` for every amount `a`,
including `a ≤ 0`, and a negative deposit strictly decreases the
balance. -/
theorem claim_C9 (v : Variant) (b a : Money) (hdep : supportsDeposit v = true) :
    step v b (Op.deposit a) = some (b + a, Outcome.ok) ∧ (a < 0 → b + a < b) := by
  refine ⟨?_, fun h => by linarith⟩
  cases v <;> simp_all [supportsDeposit, step, LSPDemo.SavingAccount.deposit,
    LSPDemo.CurrentAccount.deposit, LSPDemo.FixedTermAccount.deposit]

/-- Witness for C9: depositing −5 into a `SavingAccount` holding 0
leaves balance −5, strictly below 0. -/
theorem claim_C9_witness :
    supportsDeposit Variant.saving = true ∧
      (step Variant.saving 0 (Op.deposit (-5)) = some (0 + (-5), Outcome.ok) ∧
        ((-5 : Money) < 0 → (0 : Money) + (-5) < 0)) :=
  ⟨rfl, claim_C9 Variant.saving 0 (-5) rfl⟩

/-- C10: the constructors of `SavingAccount`, `CurrentAccount` and
`FixedTermAccount` take no initial-balance argument (in the unified
`construct` the `Money` argument is ignored), always succeed (they return
`Except.ok`, never an error), and give balance exactly 0. -/
theorem claim_C10 :
    LSPDemo.SavingAccount.new = { balance := 0 } ∧
    LSPDemo.CurrentAccount.new = { balance := 0 } ∧
    LSPDemo.FixedTermAccount.new = { balance := 0 } ∧
    (∀ b : Money,
      construct Variant.saving b = Except.ok 0 ∧
      construct Variant.current b = Except.ok 0 ∧
      construct Variant.fixedTerm b = Except.ok 0) :=
  ⟨rfl, rfl, rfl, fun _ => ⟨rfl, rfl, rfl⟩⟩

/-- C8: the spec's positive scenario, run on `SavingAccount`: from
balance 100, `deposit(1000)` gives balance 1100, then `withdraw(500)`
succeeds and gives balance 600. -/
theorem claim_C8 :
    ((LSPDemo.SavingAccount.mk 100).deposit 1000).balance = 1100 ∧
    (((LSPDemo.SavingAccount.mk 100).deposit 1000).withdraw 500).2 = true ∧
    (((LSPDemo.SavingAccount.mk 100).deposit 1000).withdraw 500).1.balance = 600 := by
  norm_num [LSPDemo.SavingAccount.deposit, LSPDemo.SavingAccount.withdraw]

/-- C6: the balance-taking constructors (`BankAccount` in both contrast
files, and the delegating `FixedDepositAccount` / `CheatAccount`
constructors) throw `invalid_argument` exactly on a negative initial
balance; on a non-negative `b` they succeed with balance exactly `b`. -/
theorem claim_C6 (b : Money) :
    (b < 0 →
      HistoryDemo.BankAccount.new b = Except.error BankError.invalidConstruction ∧
      InvariantDemo.BankAccount.new b = Except.error BankError.invalidConstruction ∧
      HistoryDemo.FixedDepositAccount.new b = Except.error BankError.invalidConstruction ∧
      InvariantDemo.CheatAccount.new b = Except.error BankError.invalidConstruction) ∧
    (0 ≤ b →
      HistoryDemo.BankAccount.new b = Except.ok { balance := b } ∧
      InvariantDemo.BankAccount.new b = Except.ok { balance := b } ∧
      HistoryDemo.FixedDepositAccount.new b = Except.ok { balance := b } ∧
      InvariantDemo.CheatAccount.new b = Except.ok { balance := b }) := by
  constructor
  · intro h
    simp [HistoryDemo.BankAccount.new, InvariantDemo.BankAccount.new,
      HistoryDemo.FixedDepositAccount.new, InvariantDemo.CheatAccount.new,
      Except.map, h]
  · intro h
    simp [HistoryDemo.BankAccount.new, InvariantDemo.BankAccount.new,
      HistoryDemo.FixedDepositAccount.new, InvariantDemo.CheatAccount.new,
      Except.map, not_lt.mpr h]

/-- Witness for C6: constructing with −10 fails with
`InvalidConstruction`; constructing with 100 succeeds with balance 100. -/
theorem claim_C6_witness :
    ((-10 : Money) < 0 ∧
      HistoryDemo.BankAccount.new (-10) = Except.error BankError.invalidConstruction) ∧
    ((0 : Money) ≤ 100 ∧
      HistoryDemo.BankAccount.new 100 = Except.ok { balance := 100 }) :=
  ⟨⟨by norm_num, ((claim_C6 (-10)).1 (by norm_num)).1⟩,
   ⟨by norm_num, ((claim_C6 100).2 (by norm_num)).1⟩⟩

/-- C2: on every withdraw-capable variant of the account contract
(`SavingAccount`, `CurrentAccount`, and the base `BankAccount` of both
contrast files) and every positive amount `a`: if `a ≤ balance` the
withdrawal succeeds and the balance drops by exactly `a`; if
`a > balance` it fails with insufficient funds and the balance is
untouched. -/
theorem claim_C2 (v : Variant) (hv : v ∈ withdrawContractVariants) (b a : Money)
    (ha : 0 < a) :
    (a ≤ b → step v b (Op.withdraw a) = some (b - a, Outcome.ok)) ∧
    (b < a → step v b (Op.withdraw a) =
      some (b, Outcome.failed BankError.insufficientFunds)) := by
  fin_cases hv <;>
    refine ⟨fun h => ?_, fun h => ?_⟩ <;>
    simp_all [step, LSPDemo.SavingAccount.withdraw, LSPDemo.CurrentAccount.withdraw,
      HistoryDemo.BankAccount.withdraw, InvariantDemo.BankAccount.withdraw,
      not_le.mpr, not_lt.mpr, sub_neg, le_of_lt]

/-- Witness for C2: on `SavingAccount`, withdrawing 50 from 100 succeeds
leaving 50; withdrawing 50 from 0 fails leaving 0. -/
theorem claim_C2_witness :
    Variant.saving ∈ withdrawContractVariants ∧ (0 : Money) < 50 ∧
      step Variant.saving 100 (Op.withdraw 50) = some (100 - 50, Outcome.ok) ∧
      step Variant.saving 0 (Op.withdraw 50) =
        some (0, Outcome.failed BankError.insufficientFunds) :=
  ⟨by simp [withdrawContractVariants], by norm_num,
   (claim_C2 Variant.saving (by simp [withdrawContractVariants]) 100 50
      (by norm_num)).1 (by norm_num),
   (claim_C2 Variant.saving (by simp [withdrawContractVariants]) 0 50
      (by norm_num)).2 (by norm_num)⟩

/-- The concrete classes that can stand behind a `WithdrawableAccount*`
in the `BankClient`'s withdrawable collection. -/
def clientWithdrawableVariants : List Variant := [.saving, .current]

/-- `SavingAccount` and `CurrentAccount` give every single interface call
the same result. -/
theorem step_saving_eq_current (b : Money) (op : Op) :
    step Variant.saving b op = step Variant.current b op := by
  cases op with
  | deposit x => rfl
  | withdraw x =>
    by_cases h : (x : Money) ≤ b <;>
      simp [step, LSPDemo.SavingAccount.withdraw, LSPDemo.CurrentAccount.withdraw,
        ge_iff_le, h]

/-- `SavingAccount` and `CurrentAccount` give every call sequence the
same result. -/
theorem run_saving_eq_current (b : Money) (ops : List Op) :
    run Variant.saving b ops = run Variant.current b ops := by
  induction ops generalizing b with
  | nil => rfl
  | cons op ops ih =>
    rw [run, run, ← step_saving_eq_current b op]
    cases hstep : step Variant.saving b op with
    | none => exact ih b
    | some p => simp only [ih p.1]

/-- C4: substitutability of the `BankClient`'s withdraw-capable classes:
any two of them, started at the same balance and fed the same sequence of
deposits and withdrawals, end at the same balance with the same outcome
(success or failure) at every single step. -/
theorem claim_C4 (v1 v2 : Variant) (h1 : v1 ∈ clientWithdrawableVariants)
    (h2 : v2 ∈ clientWithdrawableVariants) (b : Money) (ops : List Op) :
    run v1 b ops = run v2 b ops := by
  fin_cases h1 <;> fin_cases h2
  · rfl
  · exact run_saving_eq_current b ops
  · exact (run_saving_eq_current b ops).symm
  · rfl

/-- Witness for C4: `SavingAccount` and `CurrentAccount` agree on the
client's demonstration sequence from balance 0. -/
theorem claim_C4_witness :
    Variant.saving ∈ clientWithdrawableVariants ∧
    Variant.current ∈ clientWithdrawableVariants ∧
    run Variant.saving 0 [Op.deposit 1000, Op.withdraw 500] =
      run Variant.current 0 [Op.deposit 1000, Op.withdraw 500] :=
  ⟨by simp [clientWithdrawableVariants], by simp [clientWithdrawableVariants],
   claim_C4 Variant.saving Variant.current (by simp [clientWithdrawableVariants])
     (by simp [clientWithdrawableVariants]) 0 [Op.deposit 1000, Op.withdraw 500]⟩

/-- Counterexample to C5 as stated: `FixedDepositAccount` presents a
`withdraw` member (it subclasses `BankAccount`), yet withdrawing 50 from
balance 100 — a positive amount within the balance — fails with
"Withdraw not allowed in Fixed Deposit" instead of succeeding. -/
theorem claim_C5_counterexample :
    supportsWithdraw Variant.fixedDeposit = true ∧
    (0 : Money) < 50 ∧ (50 : Money) ≤ 100 ∧
    step Variant.fixedDeposit 100 (Op.withdraw 50) =
      some (100, Outcome.failed BankError.withdrawNotAllowed) ∧
    Outcome.failed BankError.withdrawNotAllowed ≠ Outcome.ok :=
  ⟨rfl, by norm_num, by norm_num, rfl, by simp⟩

/-- C5 amended: every class exposing `withdraw` other than
`FixedDepositAccount` (whose override unconditionally throws) honors the
in-funds case: for `0 < a ≤ balance`, `withdraw(a)` succeeds and leaves
`balance - a`.  This includes `CheatAccount`, whose unchecked `withdraw`
also succeeds there. -/
theorem claim_C5_amended (v : Variant) (hw : supportsWithdraw v = true)
    (hv : v ≠ Variant.fixedDeposit) (b a : Money) (ha : 0 < a) (hab : a ≤ b) :
    step v b (Op.withdraw a) = some (b - a, Outcome.ok) := by
  cases v <;> simp_all [supportsWithdraw, step, LSPDemo.SavingAccount.withdraw,
    LSPDemo.CurrentAccount.withdraw, HistoryDemo.BankAccount.withdraw,
    InvariantDemo.BankAccount.withdraw, InvariantDemo.CheatAccount.withdraw,
    sub_neg, not_lt.mpr]

/-- Witness for the amended C5: `SavingAccount`, withdrawing 50 from
100. -/
theorem claim_C5_witness :
    supportsWithdraw Variant.saving = true ∧ (0 : Money) < 50 ∧
      (50 : Money) ≤ 100 ∧
      step Variant.saving 100 (Op.withdraw 50) = some (100 - 50, Outcome.ok) :=
  ⟨rfl, by norm_num, by norm_num,
   claim_C5_amended Variant.saving rfl (by simp) 100 50 (by norm_num) (by norm_num)⟩

/-- Counterexample to C1 as stated: `CheatAccount::withdraw` performs no
check, so withdrawing 200 from balance 100 leaves the balance at −100,
below zero, while reporting success. -/
theorem claim_C1_counterexample :
    step Variant.cheat 100 (Op.withdraw 200) = some (-100, Outcome.ok) ∧
    ¬ (0 : Money) ≤ -100 := by
  constructor
  · norm_num [step, InvariantDemo.CheatAccount.withdraw]
  · norm_num

/-- C1 amended: excluding `CheatAccount`'s unchecked `withdraw` override
and restricting `deposit` to non-negative amounts (the code never
validates deposits, claim C9), no operation drives a balance below zero:
every successful construction yields a non-negative balance, and every
supported call on a class other than `CheatAccount` maps a non-negative
balance to a non-negative balance, whatever its outcome. -/
theorem claim_C1_amended :
    (∀ v : Variant, ∀ b0 b : Money, construct v b0 = Except.ok b → 0 ≤ b) ∧
    (∀ v : Variant, ∀ b : Money, ∀ op : Op, ∀ b2 : Money, ∀ o : Outcome,
      v ≠ Variant.cheat → 0 ≤ b →
      (∀ a : Money, op = Op.deposit a → 0 ≤ a) →
      step v b op = some (b2, o) → 0 ≤ b2) := by
  constructor
  · intro v b0 b h
    cases v <;>
      simp_all [construct, LSPDemo.SavingAccount.new, LSPDemo.CurrentAccount.new,
        LSPDemo.FixedTermAccount.new, HistoryDemo.BankAccount.new,
        InvariantDemo.BankAccount.new, HistoryDemo.FixedDepositAccount.new,
        InvariantDemo.CheatAccount.new, Except.map] <;>
      split_ifs at h <;> simp_all
  · intro v b op b2 o hv hb hdep hstep
    cases v <;> cases op <;>
      simp_all [step, LSPDemo.SavingAccount.deposit, LSPDemo.CurrentAccount.deposit,
        LSPDemo.FixedTermAccount.deposit, LSPDemo.SavingAccount.withdraw,
        LSPDemo.CurrentAccount.withdraw, HistoryDemo.BankAccount.withdraw,
        InvariantDemo.BankAccount.withdraw, HistoryDemo.FixedDepositAccount.withdraw]
    all_goals try split_ifs at hstep
    all_goals try simp_all
    all_goals linarith

/-- Witness for the amended C1: constructing `BankAccount(100)` yields a
non-negative balance, and a `SavingAccount` withdrawal of 30 from 100
leaves the non-negative balance 70. -/
theorem claim_C1_witness :
    (0 : Money) ≤ 100 ∧ (0 : Money) ≤ 70 :=
  ⟨claim_C1_amended.1 Variant.bankH 100 100
     (by norm_num [construct, HistoryDemo.BankAccount.new, Except.map]),
   claim_C1_amended.2 Variant.saving 100 (Op.withdraw 30) 70 Outcome.ok
     (by simp) (by norm_num) (by intro a h; simp at h)
     (by norm_num [step, LSPDemo.SavingAccount.withdraw])⟩

/-- C7: `processTransactions` gives every account in the withdrawable
collection exactly the call sequence `deposit(1000); withdraw(500)` and
every account in the deposit-only collection exactly one `deposit(5000)`
(the `DAccount` interface has no withdraw member to call); and it never
branches on the concrete variant behind the pointer: two accounts of any
variants holding equal balances are mapped to equal balances with equal
withdrawal outcomes. -/
theorem claim_C7 (c : LSPDemo.BankClient) :
    (c.processTransactions).withdrawableAccounts =
      c.withdrawableAccounts.map
        (fun acc => acc.applyOps [Op.deposit 1000, Op.withdraw 500]) ∧
    (c.processTransactions).depositOnlyAccounts =
      c.depositOnlyAccounts.map (fun acc => acc.deposit 5000) ∧
    (∀ a1 a2 : LSPDemo.WAccount, a1.balance = a2.balance →
      (a1.applyOps [Op.deposit 1000, Op.withdraw 500]).balance =
        (a2.applyOps [Op.deposit 1000, Op.withdraw 500]).balance ∧
      ((a1.deposit 1000).withdraw 500).2 = ((a2.deposit 1000).withdraw 500).2) ∧
    (∀ d1 d2 : LSPDemo.DAccount, d1.balance = d2.balance →
      (d1.deposit 5000).balance = (d2.deposit 5000).balance) := by
  refine ⟨?_, rfl, ?_, ?_⟩
  · simp [LSPDemo.BankClient.processTransactions, LSPDemo.WAccount.applyOps,
      LSPDemo.WAccount.applyOp, List.foldl]
  · intro a1 a2 h
    cases a1 <;> cases a2 <;>
      simp_all [LSPDemo.WAccount.applyOps, LSPDemo.WAccount.applyOp, List.foldl,
        LSPDemo.WAccount.balance, LSPDemo.WAccount.deposit, LSPDemo.WAccount.withdraw,
        LSPDemo.SavingAccount.deposit, LSPDemo.CurrentAccount.deposit,
        LSPDemo.SavingAccount.withdraw, LSPDemo.CurrentAccount.withdraw] <;>
      split_ifs <;> simp_all
  · intro d1 d2 h
    cases d1 <;> cases d2 <;>
      simp_all [LSPDemo.DAccount.balance, LSPDemo.DAccount.deposit,
        LSPDemo.SavingAccount.deposit, LSPDemo.CurrentAccount.deposit,
        LSPDemo.FixedTermAccount.deposit]

/-- Witness for C7: a `SavingAccount` and a `CurrentAccount` holding 0
come out of the client's withdrawable path with the same balance. -/
theorem claim_C7_witness :
    (LSPDemo.WAccount.saving { balance := 0 }).balance =
      (LSPDemo.WAccount.current { balance := 0 }).balance ∧
    ((LSPDemo.WAccount.saving { balance := 0 }).applyOps
        [Op.deposit 1000, Op.withdraw 500]).balance =
      ((LSPDemo.WAccount.current { balance := 0 }).applyOps
        [Op.deposit 1000, Op.withdraw 500]).balance :=
  ⟨rfl,
   ((claim_C7 { withdrawableAccounts := [], depositOnlyAccounts := [] }).2.2.1
      (LSPDemo.WAccount.saving { balance := 0 })
      (LSPDemo.WAccount.current { balance := 0 }) rfl).1⟩

